import Mathlib

set_option autoImplicit false

namespace Spec2Proof

/-!
Verification of the live task-telemetry pipeline of the Langgraph / Claude-code
backend.  The definitions below are shallow embeddings of the Python source:

* backend/langgraph_claude_agent.py - ClaudeCodeAgent.execute_claude_code_streaming
  (the streaming protocol adapter and its line-by-line JSON processing),
* backend/services/sse_service.py   - SSEManager (the event broadcast hub),
* backend/services/file_monitor.py  - FileStructureService (flat list / tree builders),
* backend/services/file_service.py and backend/main.py - get_file_content,
* backend/services/claude_service.py - monitor_files and stream_claude_response,
* backend/routes.py - process_chat_with_sse and its file_change_callback.

Machine-level details that the claims do not depend on (wall-clock timestamps,
logging, the websocket transport itself) are omitted; everything the claims
quantify over is modelled faithfully, including Python dict get semantics,
truthiness, and attribute errors raised on values of the wrong shape.
-/

/-! ## JSON values

The result of Python json.loads applied to one stdout line.  A dict produced
by json.loads has unique keys; key lookup returns the stored value.  The
array and object spines are their own inductives (JList, JFields) so that
equality is decidable and recursion is structural. -/

mutual

inductive JVal where
  | jnull
  | jbool (b : Bool)
  | jnum (n : Int)
  | jstr (s : String)
  | jarr (elems : JList)
  | jobj (fields : JFields)
  deriving DecidableEq, Repr

inductive JList where
  | nil
  | cons (v : JVal) (rest : JList)
  deriving DecidableEq, Repr

inductive JFields where
  | fnil
  | fcons (k : String) (v : JVal) (rest : JFields)
  deriving DecidableEq, Repr

end

def JList.ofList : List JVal → JList
  | [] => .nil
  | v :: rest => .cons v (JList.ofList rest)

def JList.toList : JList → List JVal
  | .nil => []
  | .cons v rest => v :: rest.toList

def JList.length (l : JList) : Nat := l.toList.length

def JList.isEmpty : JList → Bool
  | .nil => true
  | .cons _ _ => false

def JFields.ofList : List (String × JVal) → JFields
  | [] => .fnil
  | (k, v) :: rest => .fcons k v (JFields.ofList rest)

def JFields.length : JFields → Nat
  | .fnil => 0
  | .fcons _ _ rest => rest.length + 1

def JFields.isEmpty : JFields → Bool
  | .fnil => true
  | .fcons _ _ _ => false

def JFields.lookup : JFields → String → Option JVal
  | .fnil, _ => none
  | .fcons k v rest, key => if k = key then some v else rest.lookup key

/-- Shorthand for JSON object literals. -/
def jobjF (l : List (String × JVal)) : JVal := .jobj (JFields.ofList l)

/-- Shorthand for JSON array literals. -/
def jarrL (l : List JVal) : JVal := .jarr (JList.ofList l)

/-- Python dict.get on the fields of a JSON object: the stored value if the
key is present (even if it is null), otherwise the supplied default. -/
def objGet (fields : JFields) (key : String) (dflt : JVal) : JVal :=
  match fields.lookup key with
  | some v => v
  | none => dflt

/-- value.get(key, dflt) on an arbitrary value: only dicts have a get
attribute, every other value raises AttributeError. -/
def jGet (v : JVal) (key : String) (dflt : JVal) : Except String JVal :=
  match v with
  | .jobj fields => .ok (objGet fields key dflt)
  | _ => .error "AttributeError: object has no attribute get"

/-- Python truthiness of a JSON value. -/
def jTruthy : JVal → Bool
  | .jnull => false
  | .jbool b => b
  | .jnum n => n != 0
  | .jstr s => s != ""
  | .jarr elems => !elems.isEmpty
  | .jobj fields => !fields.isEmpty

/-- Python len: defined for strings, lists and dicts, TypeError otherwise. -/
def pyLen : JVal → Except String Nat
  | .jstr s => .ok s.length
  | .jarr elems => .ok elems.length
  | .jobj fields => .ok fields.length
  | _ => .error "TypeError: object has no len"

mutual

/-- Python repr of a JSON-shaped value (used by str() inside containers). -/
def pyRepr : JVal → String
  | .jnull => "None"
  | .jbool true => "True"
  | .jbool false => "False"
  | .jnum n => toString n
  | .jstr s => "\x27" ++ s ++ "\x27"
  | .jarr elems => "[" ++ pyReprList elems ++ "]"
  | .jobj fields => "\x7b" ++ pyReprFields fields ++ "\x7d"

def pyReprList : JList → String
  | .nil => ""
  | .cons v .nil => pyRepr v
  | .cons v rest => pyRepr v ++ ", " ++ pyReprList rest

def pyReprFields : JFields → String
  | .fnil => ""
  | .fcons k v .fnil => "\x27" ++ k ++ "\x27: " ++ pyRepr v
  | .fcons k v rest => "\x27" ++ k ++ "\x27: " ++ pyRepr v ++ ", " ++ pyReprFields rest

end

/-- Python str() as used by f-string interpolation. -/
def pyStr : JVal → String
  | .jstr s => s
  | v => pyRepr v

/-- Python `a or b` on values (truthiness-based choice). -/
def pyOr (a b : JVal) : JVal := if jTruthy a then a else b

/-! String primitives modelled structurally over character lists so that
they compute inside the kernel; each mirrors the Python string method it is
named after. -/

/-- Python s.startswith(pre). -/
def strStartsWith (s pre : String) : Bool := pre.toList.isPrefixOf s.toList

/-- Python s.endswith(suf). -/
def strEndsWith (s suf : String) : Bool := suf.toList.reverse.isPrefixOf s.toList.reverse

/-- Python s.lower(). -/
def strToLower (s : String) : String := String.mk (s.toList.map Char.toLower)

/-- Python s.strip(). -/
def strTrim (s : String) : String :=
  String.mk (((s.toList.dropWhile Char.isWhitespace).reverse.dropWhile
    Char.isWhitespace).reverse)

/-! ## Canonical stream events

The dictionaries yielded by ClaudeCodeAgent.execute_claude_code_streaming,
one constructor per distinct yield site. -/

/-- The metadata attached to a success result record. -/
structure ResultMeta where
  totalCostUsd : JVal
  durationMs : JVal
  numTurns : JVal
  sessionId : JVal
  deriving DecidableEq, Repr

inductive StreamEvent where
  /-- type verbose, subtype init (system initialization record) -/
  | verboseInit (message : String) (rawData : JVal)
  /-- type verbose, subtype user_input -/
  | verboseUserInput (rawData : JVal)
  /-- type verbose, subtype tool_start -/
  | verboseToolStart (message : String) (toolName : JVal) (toolInput : JVal)
  /-- type text (assistant text block) -/
  | textEv (content : String) (rawData : JVal)
  /-- type success (result record without error flag) -/
  | successEv (result : JVal) (meta : ResultMeta) (rawData : JVal)
  /-- type error (result record with error flag set) -/
  | errorResult (result : JVal) (rawData : JVal)
  /-- type raw (debugging passthrough of a parsed record) -/
  | rawEv (data : JVal)
  /-- type verbose, subtype output (line that failed JSON parsing) -/
  | verboseOutput (message : String) (jsonErr : String)
  /-- type error synthesized from a non-zero exit code and captured stderr -/
  | procError (returnCode : Int) (stderrText : String)
  /-- type error synthesized from an exception in the streaming path -/
  | cliError (errMsg : String)
  /-- type fallback_required (separator/chunk transport failure) -/
  | fallbackRequired (errMsg : String)
  deriving DecidableEq, Repr

/-- The value of the type field of the yielded dictionary. -/
def StreamEvent.etype : StreamEvent → String
  | .verboseInit _ _ => "verbose"
  | .verboseUserInput _ => "verbose"
  | .verboseToolStart _ _ _ => "verbose"
  | .textEv _ _ => "text"
  | .successEv _ _ _ => "success"
  | .errorResult _ _ => "error"
  | .rawEv _ => "raw"
  | .verboseOutput _ _ => "verbose"
  | .procError _ _ => "error"
  | .cliError _ => "error"
  | .fallbackRequired _ => "fallback_required"

def isSuccessEv (ev : StreamEvent) : Bool := ev.etype == "success"

def isErrorEv (ev : StreamEvent) : Bool := ev.etype == "error"

/-- A terminal event in the canonical vocabulary: a Success or an Error. -/
def isTerminalEv (ev : StreamEvent) : Bool := isSuccessEv ev || isErrorEv ev

/-! ## The tool-name formatter table

ClaudeCodeAgent._format_tool_message.  The name and input come from
block.get, so they can be arbitrary JSON values; string methods applied to
non-string values raise AttributeError, which the embedding propagates. -/

def imageExts : List String := [".png", ".jpg", ".jpeg", ".gif", ".bmp", ".svg", ".pdf"]

def formatToolMessage (toolName : JVal) (toolInput : JVal) : Except String String :=
  if toolName == .jstr "LS" then
    match jGet toolInput "path" (.jstr "") with
    | .error e => .error e
    | .ok path => .ok ("Listing: " ++ pyStr path)
  else if toolName == .jstr "Read" then
    match jGet toolInput "file_path" (.jstr "") with
    | .error e => .error e
    | .ok path =>
      if jTruthy path then
        match path with
        | .jstr s =>
          if imageExts.any (fun ext => strEndsWith (strToLower s) ext) then
            .ok ("Reading image: " ++ s)
          else
            .ok ("Reading: " ++ s)
        | _ => .error "AttributeError: object has no attribute lower"
      else
        .ok ("Reading: " ++ pyStr path)
  else if toolName == .jstr "Write" then
    match jGet toolInput "file_path" (.jstr ""), jGet toolInput "path" (.jstr "") with
    | .error e, _ => .error e
    | _, .error e => .error e
    | .ok p1, .ok p2 => .ok ("Writing: " ++ pyStr (pyOr p1 p2))
  else if toolName == .jstr "Edit" then
    match jGet toolInput "file_path" (.jstr ""), jGet toolInput "path" (.jstr "") with
    | .error e, _ => .error e
    | _, .error e => .error e
    | .ok p1, .ok p2 => .ok ("Editing: " ++ pyStr (pyOr p1 p2))
  else if toolName == .jstr "Bash" then
    match jGet toolInput "command" (.jstr "") with
    | .error e => .error e
    | .ok command => .ok ("Running: " ++ pyStr command)
  else if toolName == .jstr "WebSearch" then
    match jGet toolInput "query" (.jstr "") with
    | .error e => .error e
    | .ok q => .ok ("Web search: " ++ pyStr q)
  else if toolName == .jstr "WebFetch" then
    match jGet toolInput "url" (.jstr "") with
    | .error e => .error e
    | .ok url => .ok ("Fetching: " ++ pyStr url)
  else
    match toolName with
    | .jstr s =>
      if strStartsWith s "mcp__github" then
        .ok ("GitHub: " ++ ((s.replace "mcp__github__" "").replace "mcp__github" "GitHub"))
      else if strStartsWith s "mcp__filesystem" then
        .ok ("Filesystem: " ++ ((s.replace "mcp__filesystem__" "").replace "mcp__filesystem" "Filesystem"))
      else if strStartsWith s "mcp__web" then
        .ok ("Web: " ++ ((s.replace "mcp__web__" "").replace "mcp__web" "Web"))
      else if s == "TodoWrite" then
        .ok "Writing todo items"
      else
        .ok ("Tool: " ++ s)
    | _ => .error "AttributeError: object has no attribute startswith"

/-! ## Line-by-line stream processing

The body of the read_stdout loop inside execute_claude_code_streaming.
A raw stdout line is modelled together with the outcome of json.loads on it
(ok with the parsed value, or error with the JSONDecodeError message); the
JSON text grammar itself belongs to the external json library. -/

deriving instance DecidableEq for Except

/-- One non-empty, stripped stdout line together with its json.loads outcome. -/
structure RawLine where
  text : String
  parsed : Except String JVal
  deriving DecidableEq, Repr

/-- What happens after processing one line: continue reading, break on a
terminal result record, or propagate an exception out of the generator. -/
inductive LineOutcome where
  | next
  | term
  | abort (errMsg : String)
  deriving DecidableEq, Repr

/-- Iterating a value with a Python for loop.  Only the cases that occur are
distinguished: a list yields its elements; an empty string or dict yields
nothing; a non-empty string or dict yields strings, whose .get immediately
raises AttributeError (before any event), which this model reports directly;
other values raise TypeError. -/
def pyIter : JVal → Except String (List JVal)
  | .jarr elems => .ok elems.toList
  | .jstr s => if s.isEmpty then .ok [] else .error "AttributeError: str object has no attribute get"
  | .jobj fields => if fields.isEmpty then .ok [] else .error "AttributeError: str object has no attribute get"
  | _ => .error "TypeError: object is not iterable"

/-- Events produced by one content block of an assistant record
(the for-block loop body).  The whole parsed record is passed through as
raw_data of a text event. -/
def blockEvents (data block : JVal) : Except String (List StreamEvent) :=
  match jGet block "type" .jnull with
  | .error e => .error e
  | .ok btype =>
    if btype == .jstr "tool_use" then
      match jGet block "name" (.jstr "unknown") with
      | .error e => .error e
      | .ok toolName =>
        match jGet block "input" (jobjF []) with
        | .error e => .error e
        | .ok toolInput =>
          match formatToolMessage toolName toolInput with
          | .error e => .error e
          | .ok msg => .ok [.verboseToolStart msg toolName toolInput]
    else if btype == .jstr "text" then
      match jGet block "text" (.jstr "") with
      | .error e => .error e
      | .ok (.jstr s) => if strTrim s != "" then .ok [.textEv (strTrim s) data] else .ok []
      | .ok _ => .error "AttributeError: object has no attribute strip"
    else
      .ok []

/-- The for loop over content blocks; an exception keeps the events already
yielded by earlier blocks. -/
def processBlocks (data : JVal) : List JVal → List StreamEvent × Option String
  | [] => ([], none)
  | b :: bs =>
    match blockEvents data b with
    | .error e => ([], some e)
    | .ok evs => (evs ++ (processBlocks data bs).1, (processBlocks data bs).2)

/-- Processing of one stdout line: the events yielded for it and whether the
loop continues, breaks (result record) or aborts with an exception. -/
def processLine (line : RawLine) : List StreamEvent × LineOutcome :=
  match line.parsed with
  | .error e => ([.verboseOutput line.text ("JSON parse error: " ++ e)], .next)
  | .ok data =>
    match data with
    | .jobj fields =>
      if objGet fields "type" (.jstr "") == .jstr "system" &&
          objGet fields "subtype" .jnull == .jstr "init" then
        match pyLen (objGet fields "tools" (jarrL [])) with
        | .error e => ([], .abort e)
        | .ok n =>
          ([.verboseInit ("Session initialized - Model: " ++
              pyStr (objGet fields "model" (.jstr "claude")) ++ ", Tools: " ++ toString n) data,
            .rawEv data], .next)
      else if objGet fields "type" (.jstr "") == .jstr "user" then
        ([.verboseUserInput data, .rawEv data], .next)
      else if objGet fields "type" (.jstr "") == .jstr "assistant" then
        match objGet fields "message" (jobjF []) with
        | .jobj mfields =>
          match pyIter (objGet mfields "content" (jarrL [])) with
          | .error e => ([], .abort e)
          | .ok blocks =>
            match processBlocks data blocks with
            | (evs, some e) => (evs, .abort e)
            | (evs, none) => (evs ++ [.rawEv data], .next)
        | _ => ([], .abort "AttributeError: object has no attribute get")
      else if objGet fields "type" (.jstr "") == .jstr "result" then
        if jTruthy (objGet fields "is_error" (.jbool false)) then
          ([.errorResult (objGet fields "result" (.jstr "Task completed")) data], .term)
        else
          ([.successEv (objGet fields "result" (.jstr "Task completed"))
              ⟨objGet fields "total_cost_usd" (.jnum 0),
               objGet fields "duration_ms" (.jnum 0),
               objGet fields "num_turns" (.jnum 0),
               objGet fields "session_id" .jnull⟩ data], .term)
      else
        ([.rawEv data], .next)
    | _ => ([], .abort "AttributeError: object has no attribute get")

/-- The whole read_stdout loop over the available stdout lines: the events
delivered, whether a terminal result record was seen (break), and whether an
exception escaped the generator. -/
def readStdout : List RawLine → List StreamEvent × Bool × Option String
  | [] => ([], false, none)
  | l :: ls =>
    match processLine l with
    | (evs, .term) => (evs, true, none)
    | (evs, .abort e) => (evs, false, some e)
    | (evs, .next) => (evs ++ (readStdout ls).1, (readStdout ls).2)

/-! ## Exit handling and the full adapter sequence -/

/-- Subprocess termination state observed by process.wait / process.stderr. -/
structure ProcExit where
  returnCode : Int
  stderrText : String
  deriving DecidableEq, Repr

def listInfixOf (pat : List Char) : List Char → Bool
  | [] => pat.isEmpty
  | c :: rest => pat.isPrefixOf (c :: rest) || listInfixOf pat rest

/-- Python `pat in s` substring test. -/
def strContains (s pat : String) : Bool := listInfixOf pat.toList s.toList

/-- The heuristic of the outer except clause: a separator/chunk message is a
transport frame-size failure handled by fallback processing. -/
def isSepChunkError (msg : String) : Bool :=
  strContains (strToLower msg) "separator" && strContains (strToLower msg) "chunk"

/-- Events yielded by the outer except clause for an exception message. -/
def exceptionEvents (errMsg : String) : List StreamEvent :=
  if isSepChunkError errMsg then [.fallbackRequired errMsg] else [.cliError errMsg]

/-- Events yielded after process.wait: an error synthesized from stderr when
the exit code is non-zero and captured stderr is non-empty. -/
def procExitEvents (p : ProcExit) : List StreamEvent :=
  if p.returnCode != 0 && p.stderrText != "" then
    [.procError p.returnCode p.stderrText]
  else
    []

/-- The tail the adapter appends after the parsed stdout events: exception
handling skips process.wait, a break or normal end of stream reaches it.
readErr models an exception raised by readline itself after the given lines
(for example the LimitOverrunError separator/chunk failure on an oversized
frame); it is only reached when no break or parse exception came first. -/
def runTail (lines : List RawLine) (readErr : Option String) (p : ProcExit) : List StreamEvent :=
  match readStdout lines with
  | (_, _, some e) => exceptionEvents e
  | (_, true, none) => procExitEvents p
  | (_, false, none) =>
    match readErr with
    | some e => exceptionEvents e
    | none => procExitEvents p

/-- The full event sequence produced by one call of
execute_claude_code_streaming. -/
def runStream (lines : List RawLine) (readErr : Option String) (p : ProcExit) : List StreamEvent :=
  (readStdout lines).1 ++ runTail lines readErr p

/-! ## The SSE event broadcast hub

SSEManager in services/sse_service.py.  active_streams is a dict from
session id to one asyncio.Queue; a queue is modelled as the list of its
pending events (FIFO: put appends, get pops the head).  The handle a
subscriber obtains from add_client is the session's single shared queue, so
the session id identifies it.  Event timestamps are wall-clock strings the
claims do not mention and are omitted from the event model. -/

/-- One queued SSE event: the type tag and the data payload of send_event. -/
structure SSEEvent where
  etype : String
  data : JVal
  deriving DecidableEq, Repr

/-- The active_streams dict: association list with unique keys. -/
abbrev SSEState := List (String × List SSEEvent)

def qlookup : SSEState → String → Option (List SSEEvent)
  | [], _ => none
  | (k, q) :: rest, sid => if k = sid then some q else qlookup rest sid

/-- Replace the queue stored for a session id. -/
def setQueue : SSEState → String → List SSEEvent → SSEState
  | [], _, _ => []
  | (k, q) :: rest, sid, q2 =>
    if k = sid then (k, q2) :: rest else (k, q) :: setQueue rest sid q2

/-- SSEManager.add_client: create an empty queue only if the session has
none yet; the returned handle is the session's (shared) queue. -/
def addClient (st : SSEState) (sid : String) : SSEState :=
  if (qlookup st sid).isSome then st else st ++ [(sid, [])]

/-- SSEManager.send_event: enqueue on the session's queue, auto-creating the
stream first when the session has none. -/
def sendEvent (st : SSEState) (sid : String) (etype : String) (data : JVal) : SSEState :=
  match qlookup st sid with
  | some q => setQueue st sid (q ++ [⟨etype, data⟩])
  | none =>
    let st1 := addClient st sid
    match qlookup st1 sid with
    | some q => setQueue st1 sid (q ++ [⟨etype, data⟩])
    | none => st1

/-- One queue.get step of a subscriber loop in create_sse_stream: the oldest
pending event, or none when the 30 s receive times out (the loop then emits
a keep-alive ping instead of an event). -/
def receiveStep (st : SSEState) (sid : String) : SSEState × Option SSEEvent :=
  match qlookup st sid with
  | some (e :: rest) => (setQueue st sid rest, some e)
  | some [] => (st, none)
  | none => (st, none)

/-- SSEManager.remove_client: drop the session's queue if present. -/
def removeClient (st : SSEState) (sid : String) : SSEState :=
  st.filter (fun kv => kv.1 != sid)

/-! ## File structure service

FileStructureService in services/file_monitor.py.  A directory tree on disk
is a value of FSEntry; paths are lists of components.  rootParts are the
components of the absolute session directory path (the flat-list hidden-file
test inspects file_path.parts of the absolute path, which is
rootParts ++ relative parts). -/

inductive FSEntry where
  | file (name : String) (size : Nat) (modified : String)
  | dir (name : String) (children : List FSEntry)

def entryName : FSEntry → String
  | .file n _ _ => n
  | .dir n _ => n

/-- No path component begins with a dot. -/
def noHiddenPart (parts : List String) : Bool := parts.all (fun c => !(strStartsWith c "."))

/-- pathlib suffix of a file name: from the last dot, provided that dot is
neither the first nor the last character. -/
def pathSuffix (name : String) : String :=
  let cs := name.toList
  match (cs.reverse.takeWhile (fun c => c != '.')).length with
  | tailLen =>
    if tailLen = cs.length then ""
    else
      let i := cs.length - tailLen - 1
      if 0 < i && i < cs.length - 1 then String.mk (cs.drop i) else ""

/-- get_file_type shared by file_monitor.py, file_service.py and main.py:
classify by extension, defaulting to text. -/
def getFileType (filename : String) : String :=
  let ext := strToLower (pathSuffix filename)
  if [".jpg", ".jpeg", ".png", ".gif", ".bmp", ".svg", ".ico"].contains ext then "image"
  else if [".zip", ".tar", ".gz", ".rar", ".7z"].contains ext then "archive"
  else if [".exe", ".bin", ".dmg"].contains ext then "binary"
  else if [".py", ".js", ".ts", ".tsx", ".jsx", ".html", ".css", ".json", ".xml",
           ".yaml", ".yml", ".md", ".txt"].contains ext then "text"
  else "text"

/-- One entry of get_flat_file_list. -/
structure FlatEntry where
  name : String
  /-- path components relative to the session directory -/
  parts : List String
  size : Nat
  ftype : String
  modified : String
  deriving DecidableEq, Repr

/-- The rglob walk of get_flat_file_list over the entries of a directory:
keep a file only when no component of its absolute path (session directory
components ++ relative components) begins with a dot. -/
def flatList (rootParts relParts : List String) : List FSEntry → List FlatEntry
  | [] => []
  | .file n sz m :: rest =>
    (if noHiddenPart (rootParts ++ (relParts ++ [n])) then
      [⟨n, relParts ++ [n], sz, getFileType n, m⟩]
     else []) ++ flatList rootParts relParts rest
  | .dir n children :: rest =>
    flatList rootParts (relParts ++ [n]) children ++ flatList rootParts relParts rest

/-- FileStructureService.get_flat_file_list on an existing session
directory with the given children. -/
def getFlatFileList (rootParts : List String) (children : List FSEntry) : List FlatEntry :=
  flatList rootParts [] children

/-- A node of the tree built by build_file_tree (children are keyed by name
as in the children dict of FileSystemNode). -/
inductive TreeNode where
  | mk (name : String) (parts : List String) (isDirectory : Bool) (size : Nat)
       (modified : Option String) (ftype : Option String)
       (children : List (String × TreeNode))
  deriving Repr

def TreeNode.parts : TreeNode → List String
  | .mk _ parts _ _ _ _ _ => parts

def TreeNode.children : TreeNode → List (String × TreeNode)
  | .mk _ _ _ _ _ _ cs => cs

/-- The recursion of build_node over the children of a directory: a child
whose name begins with a dot is skipped; a file child becomes a leaf node, a
directory child recurses with its extended relative path. -/
def buildChildren (relParts : List String) : List FSEntry → List (String × TreeNode)
  | [] => []
  | c :: rest =>
    if strStartsWith (entryName c) "." then buildChildren relParts rest
    else
      match c with
      | .file n sz m =>
        (n, .mk n (relParts ++ [n]) false sz (some m) (some (getFileType n)) []) ::
          buildChildren relParts rest
      | .dir n children =>
        (n, .mk n (relParts ++ [n]) true 0 none none (buildChildren (relParts ++ [n]) children)) ::
          buildChildren relParts rest

/-- FileStructureService.build_file_tree: build_node applied to the session
directory itself with empty relative path. -/
def buildFileTree (rootName : String) (children : List FSEntry) : TreeNode :=
  .mk rootName [] true 0 none none (buildChildren [] children)

/-- Every node reachable through a children list has a relative path with no
hidden component. -/
def childrenNoHidden : List (String × TreeNode) → Bool
  | [] => true
  | (_, .mk _ parts _ _ _ _ cs) :: rest =>
    noHiddenPart parts && childrenNoHidden cs && childrenNoHidden rest

def treeNoHidden : TreeNode → Bool
  | .mk _ parts _ _ _ _ cs => noHiddenPart parts && childrenNoHidden cs

/-- FileStructureService.get_directory_structure. -/
structure DirStructure where
  tree : TreeNode
  files : List FlatEntry
  totalFiles : Nat
  totalSize : Nat

def getDirectoryStructure (rootName : String) (rootParts : List String)
    (children : List FSEntry) : DirStructure :=
  let flat := getFlatFileList rootParts children
  ⟨buildFileTree rootName children, flat, flat.length, (flat.map FlatEntry.size).sum⟩

/-! ## File content access and the path sandbox

FileService.get_file_content (services/file_service.py) resolves both the
joined path and the session directory before the startswith check; the
duplicate route in backend/main.py runs the same check on the unresolved
strings.  Paths are lists of components under the filesystem root; resolve
processes dot and dot-dot components (no symlinks in the model).  The disk
is a map from resolved absolute path to the stored file. -/

def resolveGo (acc : List String) : List String → List String
  | [] => acc
  | c :: rest =>
    if c = ".." then resolveGo acc.dropLast rest
    else if c = "." || c = "" then resolveGo acc rest
    else resolveGo (acc ++ [c]) rest

/-- Path.resolve on an absolute path given by its components. -/
def resolveComps (comps : List String) : List String := resolveGo [] comps

def joinSlash : List String → String
  | [] => ""
  | [c] => c
  | c :: rest => c ++ "/" ++ joinSlash rest

/-- str() of an absolute path. -/
def renderAbs (comps : List String) : String := "/" ++ joinSlash comps

/-- The security check of FileService.get_file_content: compare the resolved
joined path against the resolved session directory with startswith. -/
def insideCheck (rootComps reqComps : List String) : Bool :=
  strStartsWith (renderAbs (resolveComps (rootComps ++ reqComps))) (renderAbs (resolveComps rootComps))

/-- The security check of main.py get_file_content: the same startswith test
but on the unresolved strings. -/
def insideCheckRaw (rootComps reqComps : List String) : Bool :=
  strStartsWith (renderAbs (rootComps ++ reqComps)) (renderAbs rootComps)

structure StoredFile where
  name : String
  content : String
  /-- whether read_text succeeds (false models UnicodeDecodeError) -/
  utf8Ok : Bool
  deriving DecidableEq, Repr

structure ContentResponse where
  success : Bool
  content : Option String
  rtype : String
  filename : String
  errMsg : Option String
  deriving DecidableEq, Repr

def diskLookup : List (List String × StoredFile) → List String → Option StoredFile
  | [], _ => none
  | (k, f) :: rest, p => if k = p then some f else diskLookup rest p

/-- The body shared by both implementations after the existence check. -/
def readFilePayload (f : StoredFile) : ContentResponse :=
  let ftype := getFileType f.name
  if ftype = "text" then
    if f.utf8Ok then ⟨true, some f.content, "text", f.name, none⟩
    else ⟨false, none, "binary", f.name,
      some "File contains binary data and cannot be displayed as text"⟩
  else
    ⟨false, none, ftype, f.name,
      some ("File type \x27" ++ ftype ++ "\x27 is not supported for viewing")⟩

/-- FileService.get_file_content: 403 when the resolved-path check fails,
404 when the file does not exist, otherwise the payload. -/
def fileServiceGetContent (root req : List String)
    (disk : List (List String × StoredFile)) : Except Nat ContentResponse :=
  if !(insideCheck root req) then .error 403
  else
    match diskLookup disk (resolveComps (root ++ req)) with
    | none => .error 404
    | some f => .ok (readFilePayload f)

/-- main.py get_file_content: identical except that the security check runs
on the unresolved strings (existence and reading still go through the
operating system, which resolves dot-dot). -/
def mainGetContent (root req : List String)
    (disk : List (List String × StoredFile)) : Except Nat ContentResponse :=
  if !(insideCheckRaw root req) then .error 403
  else
    match diskLookup disk (resolveComps (root ++ req)) with
    | none => .error 404
    | some f => .ok (readFilePayload f)

/-! ## The migration pass and the FileService listing wrappers

FileService.migrate_old_files walks the session directory and renames every
file whose name is longer than 33 characters with an underscore at index 32
to the remainder after the underscore, unless an entry with that name
already exists in the same directory.  Both FileService.list_session_files
and FileService.get_session_directory_structure run this pass over the live
directory before building their result, so the listings they return are of
the migrated state. -/

/-- The rename target of migrate_old_files for one file name: the remainder
after index 32 when the name is longer than 33 characters, has an
underscore at index 32 and that remainder is non-empty. -/
def migrateTarget (n : String) : Option String :=
  let cs := n.toList
  if cs.length > 33 && cs.getD 32 ' ' == '_' then
    if String.mk (cs.drop 33) != "" then some (String.mk (cs.drop 33)) else none
  else none

/-- migrate_old_files over the entries of one directory.  Files are visited
in listing order; a candidate is renamed unless an entry with the target
name exists among the directory's current contents (entries already
visited, with their possibly renamed names, and entries not yet visited);
renamed entries are not revisited; subdirectories are migrated recursively
(a rename never moves a file out of its directory, so directories are
independent). -/
def migrateDir (acc : List FSEntry) : List FSEntry → List FSEntry
  | [] => acc
  | .file n sz m :: rest =>
    match migrateTarget n with
    | some orig =>
      if (acc.map entryName).contains orig || (rest.map entryName).contains orig then
        migrateDir (acc ++ [.file n sz m]) rest
      else
        migrateDir (acc ++ [.file orig sz m]) rest
    | none => migrateDir (acc ++ [.file n sz m]) rest
  | .dir n children :: rest =>
    migrateDir (acc ++ [.dir n (migrateDir [] children)]) rest

/-- FileService.migrate_old_files over the whole session directory. -/
def migrateSnapshot (children : List FSEntry) : List FSEntry := migrateDir [] children

/-- FileService.list_session_files on an existing session directory: run
the migration pass, then build the flat file list from the migrated
directory. -/
def listSessionFiles (rootParts : List String) (children : List FSEntry) : List FlatEntry :=
  getFlatFileList rootParts (migrateSnapshot children)

/-- FileService.get_session_directory_structure on an existing session
directory: run the migration pass, then build the tree and flat structure
from the migrated directory. -/
def getSessionDirectoryStructure (rootName : String) (rootParts : List String)
    (children : List FSEntry) : DirStructure :=
  getDirectoryStructure rootName rootParts (migrateSnapshot children)

/-! ## The polling file monitor (ClaudeService.monitor_files)

One iteration of the 0.5 s polling loop: rglob the session directory into a
set of relative paths (no filtering), diff against the baseline and, when
the diff is non-empty, call send_file_list_update, whose
list_session_files first runs the migrate_old_files rename pass (mutating
the directory) and then builds the payload from the migrated state.  The
step returns the messages sent, the updated baseline, and the directory as
the rename pass left it. -/

/-- All files under the session directory as relative component lists
(the unfiltered rglob of monitor_files). -/
def allFilesRel (relParts : List String) : List FSEntry → List (List String)
  | [] => []
  | .file n _ _ :: rest => (relParts ++ [n]) :: allFilesRel relParts rest
  | .dir n children :: rest =>
    allFilesRel (relParts ++ [n]) children ++ allFilesRel relParts rest

/-- One poll step: the files_updated payloads sent (at most one), the
updated baseline, and the directory state after the listing call. -/
def monitorPoll (rootParts : List String) (initialFiles : Finset (List String))
    (snapshot : List FSEntry) :
    List (List FlatEntry) × Finset (List String) × List FSEntry :=
  let current := (allFilesRel [] snapshot).toFinset
  let newFiles := current \ initialFiles
  if newFiles = ∅ then ([], initialFiles, snapshot)
  else ([listSessionFiles rootParts snapshot], initialFiles ∪ newFiles,
    migrateSnapshot snapshot)

/-! ## The watchdog callback path (routes.py file_change_callback)

The SSE processing path registers a per-event callback with the watchdog
monitor; there is no debouncing there.  Display-path cleaning mirrors the
three re.sub patterns. -/

/-- Remove every occurrence of dot tmp dot digits (the re.sub of
a dot-tmp-dot-digits pattern, digits taken greedily). -/
def stripTmpNum : List Char → List Char
  | [] => []
  | '.' :: 't' :: 'm' :: 'p' :: '.' :: rest =>
    let ds := rest.takeWhile Char.isDigit
    if ds.length > 0 then stripTmpNum (rest.drop ds.length)
    else '.' :: stripTmpNum ('t' :: 'm' :: 'p' :: '.' :: rest)
  | c :: rest => c :: stripTmpNum rest
termination_by cs => cs.length
decreasing_by
  all_goals simp [List.length_drop]
  all_goals omega

/-- Remove a trailing dot followed by ten or more digits. -/
def stripLongNumSuffix (cs : List Char) : List Char :=
  let revd := cs.reverse
  let ds := revd.takeWhile Char.isDigit
  if ds.length ≥ 10 then
    match revd.drop ds.length with
    | '.' :: rest => rest.reverse
    | _ => cs
  else cs

/-- The display-path cleaning of file_change_callback. -/
def cleanPath (p : String) : String :=
  let s1 := String.mk (stripTmpNum p.toList)
  let s2 := String.mk (stripLongNumSuffix s1.toList)
  if strEndsWith s2 ".temp" then String.mk (s2.toList.take (s2.toList.length - 5)) else s2

/-- Messages the SSE processing path hands to the SSE manager (the
send_verbose / send_text / send_success / send_error / send_files_updated
helpers plus the raw directory-structure update). -/
inductive SSEOut where
  | outVerbose (message : JVal) (subtype : JVal) (toolName : JVal) (toolInput : JVal)
  | outText (content : JVal)
  | outSuccess (result : JVal) (meta : JVal)
  | outError (message : JVal) (errDetail : JVal)
  | outFilesUpdated (files : List FlatEntry) (newFiles : List String)
  | outDirStructure (info : DirStructure)

/-- SSEManager.send_error stores error-or-message as the error detail. -/
def sendErrorOut (message error : JVal) : SSEOut :=
  .outError message (if jTruthy error then error else message)

/-- routes.py file_change_callback for one watchdog event, given the
directory snapshot read back from disk at callback time. -/
def fileChangeCallback (processingActive : Bool) (eventType : String) (filePath : String)
    (rootName : String) (rootParts : List String) (snapshot : List FSEntry) : List SSEOut :=
  (if eventType = "created" && processingActive then
    [.outVerbose (.jstr ("Created " ++ cleanPath filePath)) (.jstr "file_created")
      (.jstr "watchdog") (jobjF [("file", .jstr (cleanPath filePath))])]
   else []) ++
  (if eventType = "created" || eventType = "modified" then
    let st := getSessionDirectoryStructure rootName rootParts snapshot
    [.outFilesUpdated st.files (if eventType = "created" then [filePath] else []),
     .outDirStructure st]
   else [])

def isFilesUpdatedOut : SSEOut → Bool
  | .outFilesUpdated _ _ => true
  | _ => false

/-! ## The two consumers of the adapter stream

stream_claude_response (services/claude_service.py, the WebSocket path) and
the event loop of process_chat_with_sse (routes.py, the SSE path).  Both
read fields out of the yielded dictionaries with dict.get; the accessors
below give the value of each field for each event constructor. -/

/-- stream_data.get with key message and default empty string. -/
def evMessage : StreamEvent → JVal
  | .verboseInit m _ => .jstr m
  | .verboseUserInput _ => .jstr "Processing your request..."
  | .verboseToolStart m _ _ => .jstr m
  | .textEv _ _ => .jstr ""
  | .successEv _ _ _ => .jstr ""
  | .errorResult r _ => r
  | .rawEv _ => .jstr ""
  | .verboseOutput m _ => .jstr m
  | .procError rc _ => .jstr ("Process failed with code " ++ toString rc)
  | .cliError e => .jstr ("CLI execution error: " ++ e)
  | .fallbackRequired _ => .jstr "Large response detected - fallback processing needed"

/-- stream_data.get with key error and default empty string. -/
def evError : StreamEvent → JVal
  | .errorResult r _ => r
  | .procError _ st => .jstr st
  | .cliError e => .jstr e
  | .verboseOutput _ jerr => .jstr jerr
  | .fallbackRequired e => .jstr e
  | _ => .jstr ""

/-- stream_data.get with key subtype and default empty string. -/
def evSubtype : StreamEvent → JVal
  | .verboseInit _ _ => .jstr "init"
  | .verboseUserInput _ => .jstr "user_input"
  | .verboseToolStart _ _ _ => .jstr "tool_start"
  | .verboseOutput _ _ => .jstr "output"
  | _ => .jstr ""

/-- stream_data.get with key content and default empty string. -/
def evContent : StreamEvent → JVal
  | .textEv c _ => .jstr c
  | _ => .jstr ""

/-- stream_data.get with key result and default empty string. -/
def evResult : StreamEvent → JVal
  | .successEv r _ _ => r
  | _ => .jstr ""

/-- stream_data.get with key metadata and default empty dict. -/
def evMeta : StreamEvent → JVal
  | .successEv _ m _ =>
    jobjF [("total_cost_usd", m.totalCostUsd), ("duration_ms", m.durationMs),
           ("num_turns", m.numTurns), ("session_id", m.sessionId)]
  | _ => jobjF []

/-- stream_data.get with key tool_name, default None. -/
def evToolName : StreamEvent → JVal
  | .verboseToolStart _ n _ => n
  | _ => .jnull

/-- stream_data.get with key tool_input, default None. -/
def evToolInput : StreamEvent → JVal
  | .verboseToolStart _ _ i => i
  | _ => .jnull

/-- The result dict of ClaudeService.process_chat_message (success flag,
message, metadata) used by the fallback branch, or an exception raised while
running it and sending the result. -/
inductive FbRes where
  | returned (success : Bool) (message : String) (meta : JVal)
  | raised (errMsg : String)

/-- Messages sent over the WebSocket by stream_claude_response. -/
inductive WsOut where
  | wsProgress (message : JVal)
  | wsText (content : JVal)
  | wsSuccess (result : JVal) (meta : JVal)
  | wsError (message : JVal) (errDetail : Option JVal)
  | wsForward (ev : StreamEvent)

/-- Resolution of the fallback branch of stream_claude_response. -/
def fbResolveWs : FbRes → List WsOut
  | .returned true msg meta => [.wsSuccess (.jstr msg) meta]
  | .returned false msg _ => [.wsError (.jstr msg) none]
  | .raised e => [.wsError (.jstr ("Unable to process request: " ++ e)) none]

/-- One iteration of the event loop of stream_claude_response: the messages
sent and whether the loop breaks. -/
def wsHandleEvent (ev : StreamEvent) (fb : FbRes) : List WsOut × Bool :=
  if ev.etype = "verbose" then ([.wsProgress (evMessage ev)], false)
  else if ev.etype = "text" then ([.wsText (evContent ev)], false)
  else if ev.etype = "success" then ([.wsSuccess (evResult ev) (evMeta ev)], true)
  else if ev.etype = "error" then ([.wsError (evMessage ev) (some (evError ev))], true)
  else if ev.etype = "fallback_required" then
    ([.wsProgress (.jstr "Processing your request...")] ++ fbResolveWs fb, true)
  else if ev.etype = "raw" then ([], false)
  else ([.wsForward ev], false)

/-- The whole WebSocket event loop over the adapter stream. -/
def wsConsume (evs : List StreamEvent) (fb : FbRes) : List WsOut :=
  match evs with
  | [] => []
  | ev :: rest =>
    let (outs, brk) := wsHandleEvent ev fb
    if brk then outs else outs ++ wsConsume rest fb

/-- One iteration of the event loop of process_chat_with_sse: only verbose,
text, success and error have branches; every other message type (including
fallback_required and raw) falls through with no output. -/
def sseHandleEvent (ev : StreamEvent) : List SSEOut × Bool :=
  if ev.etype = "verbose" then
    ([.outVerbose (evMessage ev) (evSubtype ev) (evToolName ev) (evToolInput ev)], false)
  else if ev.etype = "text" then ([.outText (evContent ev)], false)
  else if ev.etype = "success" then ([.outSuccess (evResult ev) (evMeta ev)], true)
  else if ev.etype = "error" then ([sendErrorOut (evMessage ev) (evError ev)], true)
  else ([], false)

/-- The whole SSE event loop over the adapter stream. -/
def sseConsume : List StreamEvent → List SSEOut
  | [] => []
  | ev :: rest =>
    let (outs, brk) := sseHandleEvent ev
    if brk then outs else outs ++ sseConsume rest

def isTerminalSSEOut : SSEOut → Bool
  | .outSuccess _ _ => true
  | .outError _ _ => true
  | _ => false

/-! ## Auxiliary predicates and concrete inputs used by the theorems -/

/-- The first terminal event of the list, if any, is its last element. -/
def termShapeOk : List StreamEvent → Bool
  | [] => true
  | ev :: rest => if isTerminalEv ev then rest.isEmpty else termShapeOk rest

/-- A success result record as a parsed stdout line. -/
def resultSuccessLine : RawLine :=
  ⟨"result-line",
   .ok (jobjF [("type", .jstr "result"), ("result", .jstr "done"), ("is_error", .jbool false)])⟩

/-- A disk holding a file one level above the session directory. -/
def outsideDisk : List (List String × StoredFile) :=
  [(["workspace", "secret.txt"], ⟨"secret.txt", "TOP-SECRET", true⟩)]

/-! # Theorems

First the helper lemmas about the adapter pipeline, then one theorem per
claim (with its witness or counterexample where required). -/

theorem blockEvents_noTerm (data b : JVal) (evs : List StreamEvent)
    (h : blockEvents data b = .ok evs) :
    evs.all (fun e => !isTerminalEv e) = true := by
  unfold blockEvents at h
  repeat' split at h
  all_goals first
    | (injection h with h1
       subst h1
       rfl)
    | injection h

theorem processBlocks_noTerm (data : JVal) (bs : List JVal) :
    (processBlocks data bs).1.all (fun e => !isTerminalEv e) = true := by
  induction bs with
  | nil => rfl
  | cons b rest ih =>
    cases hb : blockEvents data b with
    | error e =>
      have h1 : processBlocks data (b :: rest) = ([], some e) := by
        simp [processBlocks, hb]
      simp [h1]
    | ok evs =>
      have h1 : processBlocks data (b :: rest) =
          (evs ++ (processBlocks data rest).1, (processBlocks data rest).2) := by
        simp [processBlocks, hb]
      rw [h1]
      simp only [List.all_append]
      rw [blockEvents_noTerm data b evs hb, ih]
      rfl

theorem processBlocks_fst_noTerm (data : JVal) (bs : List JVal) (evs : List StreamEvent)
    (ab : Option String) (h : processBlocks data bs = (evs, ab)) :
    evs.all (fun e => !isTerminalEv e) = true := by
  have h2 := processBlocks_noTerm data bs
  rw [h] at h2
  exact h2

theorem processLine_nonterm_noTerm (l : RawLine) (evs : List StreamEvent) (oc : LineOutcome)
    (h : processLine l = (evs, oc)) (hoc : oc ≠ .term) :
    evs.all (fun e => !isTerminalEv e) = true := by
  unfold processLine at h
  repeat' split at h
  all_goals injection h with h1 h2
  all_goals subst h1
  all_goals cases h2
  all_goals first
    | exact absurd rfl hoc
    | rfl
    | (rename_i heq
       simp [List.all_append, processBlocks_fst_noTerm _ _ _ _ heq] <;> rfl)

theorem processLine_term_single (l : RawLine) (evs : List StreamEvent)
    (h : processLine l = (evs, .term)) :
    ∃ ev, evs = [ev] ∧ isTerminalEv ev = true := by
  unfold processLine at h
  repeat' split at h
  all_goals injection h with h1 h2
  all_goals subst h1
  all_goals cases h2
  all_goals exact ⟨_, rfl, by rfl⟩

theorem termShapeOk_append_noTerm (evs rest : List StreamEvent)
    (h : evs.all (fun e => !isTerminalEv e) = true) :
    termShapeOk (evs ++ rest) = termShapeOk rest := by
  induction evs with
  | nil => rfl
  | cons e tail ih => simp_all [termShapeOk]

theorem termShapeOk_of_noTerm (evs : List StreamEvent)
    (h : evs.all (fun e => !isTerminalEv e) = true) :
    termShapeOk evs = true := by
  have h2 := termShapeOk_append_noTerm evs [] h
  simpa [termShapeOk] using h2

theorem countP_le_one_of_termShapeOk (evs : List StreamEvent)
    (h : termShapeOk evs = true) :
    evs.countP isTerminalEv ≤ 1 := by
  induction evs with
  | nil => simp
  | cons e tail ih =>
    by_cases he : isTerminalEv e = true
    · have : tail.isEmpty = true := by simpa [termShapeOk, he] using h
      simp_all [List.countP_cons, List.isEmpty_iff]
    · have h2 : termShapeOk tail = true := by simpa [termShapeOk, he] using h
      simp_all [List.countP_cons]

theorem readStdout_shape (lines : List RawLine) :
    termShapeOk (readStdout lines).1 = true := by
  induction lines with
  | nil => simp [readStdout, termShapeOk]
  | cons l ls ih =>
    cases hl : processLine l with
    | mk evs oc =>
      cases oc with
      | term =>
        have h1 : readStdout (l :: ls) = (evs, true, none) := by simp [readStdout, hl]
        obtain ⟨ev, hev, hterm⟩ := processLine_term_single l evs hl
        simp [h1, hev, termShapeOk, hterm]
      | abort e =>
        have h1 : readStdout (l :: ls) = (evs, false, some e) := by simp [readStdout, hl]
        rw [h1]
        exact termShapeOk_of_noTerm evs (processLine_nonterm_noTerm l evs _ hl (by simp))
      | next =>
        have h1 : readStdout (l :: ls) = (evs ++ (readStdout ls).1, (readStdout ls).2) := by
          simp [readStdout, hl]
        have hno := processLine_nonterm_noTerm l evs _ hl (by simp)
        rw [h1]
        simpa [termShapeOk_append_noTerm evs _ hno] using ih

theorem readStdout_noTerm_all (lines : List RawLine)
    (h : (readStdout lines).2.1 = false) :
    (readStdout lines).1.all (fun e => !isTerminalEv e) = true := by
  induction lines with
  | nil => simp [readStdout]
  | cons l ls ih =>
    cases hl : processLine l with
    | mk evs oc =>
      cases oc with
      | term =>
        have h1 : readStdout (l :: ls) = (evs, true, none) := by simp [readStdout, hl]
        rw [h1] at h
        simp at h
      | abort e =>
        have h1 : readStdout (l :: ls) = (evs, false, some e) := by simp [readStdout, hl]
        rw [h1]
        exact processLine_nonterm_noTerm l evs _ hl (by simp)
      | next =>
        have h1 : readStdout (l :: ls) = (evs ++ (readStdout ls).1, (readStdout ls).2) := by
          simp [readStdout, hl]
        have hno := processLine_nonterm_noTerm l evs _ hl (by simp)
        rw [h1] at h ⊢
        simp only [List.all_append]
        have hrest := ih h
        simp_all

theorem runStream_eq_append (lines : List RawLine) (readErr : Option String) (p : ProcExit) :
    runStream lines readErr p = (readStdout lines).1 ++ runTail lines readErr p := rfl

theorem runTail_clean (lines : List RawLine) (p : ProcExit)
    (hab : (readStdout lines).2.2 = none) (hrc : p.returnCode = 0) :
    runTail lines none p = [] := by
  unfold runTail
  cases hr : readStdout lines with
  | mk evs rest =>
    cases rest with
    | mk t ab =>
      rw [hr] at hab
      simp at hab
      subst hab
      cases t <;> simp [procExitEvents, hrc]

/-- C1: the claim as the spec states it is refuted by the code: after a
success result record the parse loop breaks, but process.wait still runs and
a non-zero exit code with non-empty stderr appends a second terminal event
(an Error after the Success); a stream with no result record and a clean
exit produces zero terminal events.  Both counts contradict exactly one. -/
theorem c1_counterexample :
    (runStream [resultSuccessLine] none ⟨1, "boom"⟩).countP isTerminalEv = 2 ∧
    (runStream [] none ⟨0, ""⟩).countP isTerminalEv = 0 := by
  constructor <;> rfl

/-- C1 (amended): the line-parsing loop emits at most one terminal event and
stops reading at it, so within the parsed stream nothing follows a terminal
event.  The full adapter sequence is the parsed stream plus an appended
tail: when the subprocess exit code is non-zero and captured stderr is
non-empty, one further Error event follows even after a Success; with no
parse exception, no read exception and exit code zero the sequence is
exactly the parsed stream, hence ends at its terminal event when one
exists. -/
theorem c1_terminal_structure (lines : List RawLine) (readErr : Option String) (p : ProcExit) :
    termShapeOk (readStdout lines).1 = true ∧
    (readStdout lines).1.countP isTerminalEv ≤ 1 ∧
    runStream lines readErr p = (readStdout lines).1 ++ runTail lines readErr p ∧
    ((readStdout lines).2.2 = none → p.returnCode = 0 →
      runStream lines none p = (readStdout lines).1) := by
  refine ⟨readStdout_shape lines, ?_, rfl, ?_⟩
  · exact countP_le_one_of_termShapeOk _ (readStdout_shape lines)
  · intro hab hrc
    rw [runStream_eq_append, runTail_clean lines p hab hrc, List.append_nil]

/-- Witness for c1_terminal_structure at a concrete single-line stream with
clean exit. -/
theorem c1_terminal_structure_witness :
    termShapeOk (readStdout [resultSuccessLine]).1 = true ∧
    runStream [resultSuccessLine] none ⟨0, ""⟩ = (readStdout [resultSuccessLine]).1 := by
  have h := c1_terminal_structure [resultSuccessLine] none ⟨0, ""⟩
  exact ⟨h.1, h.2.2.2 rfl rfl⟩

/-- C4: a non-empty line whose JSON parse fails never raises out of the
loop; it yields exactly one passthrough verbose event of subtype output
carrying the raw line text, and the loop continues. -/
theorem c4_malformed_line_passthrough (l : RawLine) (e : String)
    (_hne : l.text ≠ "") (hp : l.parsed = .error e) :
    processLine l = ([.verboseOutput l.text ("JSON parse error: " ++ e)], .next) := by
  unfold processLine
  rw [hp]

/-- Witness for c4_malformed_line_passthrough on a concrete malformed line. -/
theorem c4_malformed_line_passthrough_witness :
    ("oops not json" : String) ≠ "" ∧
    processLine ⟨"oops not json", .error "Expecting value"⟩ =
      ([.verboseOutput "oops not json" ("JSON parse error: " ++ "Expecting value")], .next) := by
  exact ⟨by decide,
    c4_malformed_line_passthrough ⟨"oops not json", .error "Expecting value"⟩
      "Expecting value" (by decide) rfl⟩

/-- C7: when the stdout lines contain no result record (no break) and no
parse exception, a non-zero exit code with non-empty captured stderr yields
exactly one error event, synthesized from the stderr text, and no success
event. -/
theorem c7_process_failure_error (lines : List RawLine) (rc : Int) (s : String)
    (hterm : (readStdout lines).2.1 = false) (hab : (readStdout lines).2.2 = none)
    (hrc : rc ≠ 0) (hs : s ≠ "") :
    (runStream lines none ⟨rc, s⟩).filter isErrorEv = [.procError rc s] ∧
    (runStream lines none ⟨rc, s⟩).filter isSuccessEv = [] := by
  have hall := readStdout_noTerm_all lines hterm
  have htail : runTail lines none ⟨rc, s⟩ = [.procError rc s] := by
    unfold runTail
    cases hr : readStdout lines with
    | mk evs rest =>
      cases rest with
      | mk t ab =>
        rw [hr] at hterm hab
        simp at hterm hab
        subst hterm
        subst hab
        simp [procExitEvents, hrc, hs]
  have herr : (readStdout lines).1.filter isErrorEv = [] := by
    rw [List.filter_eq_nil_iff]
    intro ev hev
    have h1 := List.all_eq_true.mp hall ev hev
    simp [isTerminalEv] at h1
    simp [h1.2]
  have hsuc : (readStdout lines).1.filter isSuccessEv = [] := by
    rw [List.filter_eq_nil_iff]
    intro ev hev
    have h1 := List.all_eq_true.mp hall ev hev
    simp [isTerminalEv] at h1
    simp [h1.1]
  rw [runStream_eq_append, htail]
  constructor
  · rw [List.filter_append, herr]
    rfl
  · rw [List.filter_append, hsuc]
    rfl

/-- Witness for c7_process_failure_error: empty stdout, exit code 1, stderr
boom, exactly the scenario of the claim. -/
theorem c7_process_failure_error_witness :
    (runStream [] none ⟨1, "boom"⟩).filter isErrorEv = [.procError 1 "boom"] ∧
    (runStream [] none ⟨1, "boom"⟩).filter isSuccessEv = [] := by
  exact c7_process_failure_error [] 1 "boom" rfl rfl (by decide) (by decide)

/-- C8: the adapter pipeline is a pure function of the raw line sequence
and the observed process outcome: replaying an identical input yields an
identical canonical event sequence. -/
theorem c8_replay_deterministic (lines1 lines2 : List RawLine)
    (re1 re2 : Option String) (p1 p2 : ProcExit)
    (hl : lines1 = lines2) (hr : re1 = re2) (hp : p1 = p2) :
    runStream lines1 re1 p1 = runStream lines2 re2 p2 := by
  subst hl
  subst hr
  subst hp
  rfl

/-- Witness for c8_replay_deterministic on a concrete replayed stream. -/
theorem c8_replay_deterministic_witness :
    runStream [resultSuccessLine] none ⟨0, ""⟩ = runStream [resultSuccessLine] none ⟨0, ""⟩ := by
  exact c8_replay_deterministic [resultSuccessLine] [resultSuccessLine] none none
    ⟨0, ""⟩ ⟨0, ""⟩ rfl rfl rfl

theorem qlookup_setQueue (st : SSEState) (sid : String) (q q2 : List SSEEvent)
    (h : qlookup st sid = some q) : qlookup (setQueue st sid q2) sid = some q2 := by
  induction st with
  | nil => simp [qlookup] at h
  | cons kv rest ih =>
    obtain ⟨k, q0⟩ := kv
    by_cases hk : k = sid
    · subst hk
      simp [qlookup, setQueue]
    · simp [qlookup, setQueue, hk] at h ⊢
      exact ih h

theorem qlookup_append_new (st : SSEState) (sid : String) (q : List SSEEvent)
    (h : qlookup st sid = none) : qlookup (st ++ [(sid, q)]) sid = some q := by
  induction st with
  | nil => simp [qlookup]
  | cons kv rest ih =>
    obtain ⟨k, q0⟩ := kv
    by_cases hk : k = sid
    · subst hk
      simp [qlookup] at h
    · simp [qlookup, hk] at h ⊢
      exact ih h

/-- C2: the claim as the spec states it is refuted by the code: two
subscribers of the same session share one queue (add_client returns the
existing queue instead of a per-subscriber one), so after publishing E1 the
first receive consumes it and the second subscriber's receive finds the
queue empty (a keep-alive timeout, not E1).  Both subscribers therefore do
not each receive E1. -/
theorem c2_counterexample :
    (receiveStep (sendEvent (addClient (addClient [] "s") "s") "s" "text" (.jstr "E1")) "s").2 =
      some ⟨"text", .jstr "E1"⟩ ∧
    (receiveStep
      (receiveStep (sendEvent (addClient (addClient [] "s") "s") "s" "text" (.jstr "E1")) "s").1
      "s").2 = none := by
  constructor <;> decide

/-- C2 (amended): all subscribers of a session share one queue: attaching a
second subscriber to an existing session leaves the hub state unchanged
(add_client returns the existing queue), publishing appends the event once
to that shared queue, and a receive removes the event it delivers, so each
published event is delivered to exactly one receiver rather than to every
subscriber. -/
theorem c2_shared_queue (st : SSEState) (sid : String) (q : List SSEEvent)
    (etype : String) (d : JVal) (e : SSEEvent) (rest : List SSEEvent) :
    (qlookup st sid = some q → addClient st sid = st) ∧
    (qlookup st sid = some q →
      qlookup (sendEvent st sid etype d) sid = some (q ++ [⟨etype, d⟩])) ∧
    (qlookup st sid = some (e :: rest) →
      receiveStep st sid = (setQueue st sid rest, some e)) := by
  refine ⟨?_, ?_, ?_⟩
  · intro h
    simp [addClient, h]
  · intro h
    simp only [sendEvent, h]
    exact qlookup_setQueue st sid q (q ++ [⟨etype, d⟩]) h
  · intro h
    simp [receiveStep, h]

/-- Witness for c2_shared_queue on a concrete one-session state. -/
theorem c2_shared_queue_witness :
    addClient [("s", [])] "s" = [("s", [])] ∧
    qlookup (sendEvent [("s", [])] "s" "text" .jnull) "s" = some [⟨"text", .jnull⟩] ∧
    receiveStep [("s", [⟨"text", .jnull⟩])] "s" =
      (setQueue [("s", [⟨"text", .jnull⟩])] "s" [], some ⟨"text", .jnull⟩) := by
  refine ⟨?_, ?_, ?_⟩
  · exact (c2_shared_queue [("s", [])] "s" [] "text" .jnull ⟨"text", .jnull⟩ []).1 rfl
  · exact (c2_shared_queue [("s", [])] "s" [] "text" .jnull ⟨"text", .jnull⟩ []).2.1 rfl
  · exact (c2_shared_queue [("s", [⟨"text", .jnull⟩])] "s" [] "text" .jnull
      ⟨"text", .jnull⟩ []).2.2 rfl

/-- C9: publishing to a session with no subscriber stream lazily creates the
session's queue and enqueues the event; a subscriber attaching afterwards
gets that same queue unchanged and its first receive delivers the event. -/
theorem c9_lazy_create_on_publish (st : SSEState) (sid etype : String) (d : JVal)
    (h : qlookup st sid = none) :
    qlookup (sendEvent st sid etype d) sid = some [⟨etype, d⟩] ∧
    addClient (sendEvent st sid etype d) sid = sendEvent st sid etype d ∧
    (receiveStep (sendEvent st sid etype d) sid).2 = some ⟨etype, d⟩ := by
  have hq : qlookup (sendEvent st sid etype d) sid = some [⟨etype, d⟩] := by
    simp only [sendEvent, h, addClient, Option.isSome_none, Bool.false_eq_true, if_false]
    have h1 := qlookup_append_new st sid [] h
    rw [h1]
    simpa using qlookup_setQueue (st ++ [(sid, [])]) sid [] [⟨etype, d⟩] h1
  refine ⟨hq, ?_, ?_⟩
  · simp [addClient, hq]
  · simp [receiveStep, hq]

/-- Witness for c9_lazy_create_on_publish: publish to an empty hub, then
attach and receive. -/
theorem c9_lazy_create_on_publish_witness :
    qlookup (sendEvent [] "s" "text" .jnull) "s" = some [⟨"text", .jnull⟩] ∧
    addClient (sendEvent [] "s" "text" .jnull) "s" = sendEvent [] "s" "text" .jnull ∧
    (receiveStep (sendEvent [] "s" "text" .jnull) "s").2 = some ⟨"text", .jnull⟩ := by
  exact c9_lazy_create_on_publish [] "s" "text" .jnull rfl

/-- C5: the claim as the spec states it is refuted by the code: the SSE
processing path (the event loop of process_chat_with_sse) has no branch for
fallback_required, so a transport failure resolved on the WebSocket path is
silently dropped on the SSE path; the subscriber gets no terminal event at
all rather than the promised Success or Error. -/
theorem c5_counterexample :
    sseConsume [.fallbackRequired "Separator is not found, and chunk exceed the limit"] = [] ∧
    (sseConsume [.fallbackRequired "Separator is not found, and chunk exceed the limit"]).countP
      isTerminalSSEOut = 0 := by
  exact ⟨rfl, rfl⟩

/-- C5 (amended): the WebSocket path resolves the fallback-required
condition to a normal terminal event - one Success if the non-streaming call
reports success, otherwise one Error (an Error mentioning fallback failure
when the fallback call itself raises) - and never forwards the raw
condition; the SSE processing path also never forwards the raw condition,
but does not resolve it either: it drops the event and emits no terminal
event for it. -/
theorem c5_fallback_resolution (m msg e : String) (meta : JVal) :
    wsHandleEvent (.fallbackRequired m) (.returned true msg meta) =
      ([.wsProgress (.jstr "Processing your request..."), .wsSuccess (.jstr msg) meta], true) ∧
    wsHandleEvent (.fallbackRequired m) (.returned false msg meta) =
      ([.wsProgress (.jstr "Processing your request..."), .wsError (.jstr msg) none], true) ∧
    wsHandleEvent (.fallbackRequired m) (.raised e) =
      ([.wsProgress (.jstr "Processing your request..."),
        .wsError (.jstr ("Unable to process request: " ++ e)) none], true) ∧
    sseHandleEvent (.fallbackRequired m) = ([], false) := by
  exact ⟨rfl, rfl, rfl, rfl⟩

theorem noHiddenPart_of_append (a b : List String)
    (h : noHiddenPart (a ++ b) = true) : noHiddenPart b = true := by
  simp [noHiddenPart, List.all_append] at h ⊢
  exact h.2

theorem mem_flatList_of_mem_allFiles (rp : List String) :
    ∀ (rel : List String) (es : List FSEntry) (p : List String),
      p ∈ allFilesRel rel es → noHiddenPart (rp ++ p) = true →
      p ∈ (flatList rp rel es).map FlatEntry.parts := by
  intro rel es
  induction rel, es using allFilesRel.induct with
  | case1 rel => intro p hp; simp [allFilesRel] at hp
  | case2 rel n sz m rest ih =>
    intro p hp hh
    simp only [allFilesRel] at hp
    rcases List.mem_cons.mp hp with heq | hmem
    · subst heq
      have hc : noHiddenPart (rp ++ (rel ++ [n])) = true := hh
      simp only [flatList, List.map_append, List.mem_append]
      left
      simp [hc]
    · have htail := ih p hmem hh
      simp only [flatList, List.map_append, List.mem_append]
      exact Or.inr htail
  | case3 rel n children rest ih1 ih2 =>
    intro p hp hh
    simp only [allFilesRel, List.mem_append] at hp
    rcases hp with hmem | hmem
    · have := ih1 p hmem hh
      simp only [flatList, List.map_append, List.mem_append]
      exact Or.inl this
    · have := ih2 p hmem hh
      simp only [flatList, List.map_append, List.mem_append]
      exact Or.inr this

/-- C6: the claim as the spec states it is refuted by the code: on the SSE
path the watchdog callback (routes.py file_change_callback) fires once per
OS event with no debouncing, so a burst of two file creations during an
active execution emits two files_updated events, not one coalesced event. -/
theorem c6_counterexample :
    ((fileChangeCallback true "created" "b.txt" "sid" ["workspace", "sid"] [] ++
      fileChangeCallback true "created" "c.txt" "sid" ["workspace", "sid"] []).countP
        isFilesUpdatedOut) = 2 := by
  rfl

theorem allFilesRel_append (rel : List String) (a b : List FSEntry) :
    allFilesRel rel (a ++ b) = allFilesRel rel a ++ allFilesRel rel b := by
  induction a generalizing rel with
  | nil => simp [allFilesRel]
  | cons head rest ih => cases head <;> simp [allFilesRel, ih]

theorem migrateDir_prefix (acc es : List FSEntry) :
    ∃ tail, migrateDir acc es = acc ++ tail := by
  induction acc, es using migrateDir.induct with
  | case1 acc => exact ⟨[], by simp [migrateDir]⟩
  | case2 acc n sz m rest orig g h ih =>
    obtain ⟨t, ht⟩ := ih
    refine ⟨.file n sz m :: t, ?_⟩
    simp only [migrateDir, g]
    rw [if_pos h, ht]
    simp
  | case3 acc n sz m rest orig g h ih =>
    obtain ⟨t, ht⟩ := ih
    refine ⟨.file orig sz m :: t, ?_⟩
    simp only [migrateDir, g]
    rw [if_neg h, ht]
    simp
  | case4 acc n sz m rest g ih =>
    obtain ⟨t, ht⟩ := ih
    exact ⟨.file n sz m :: t, by simp [migrateDir, g, ht]⟩
  | case5 acc n children rest ihc ih =>
    obtain ⟨t, ht⟩ := ih
    exact ⟨.dir n (migrateDir [] children) :: t, by simp [migrateDir, ht]⟩

/-- A file whose name is not a rename candidate of migrate_old_files stays
at its relative path through the migration pass. -/
theorem mem_migrateDir_of_noRename :
    ∀ (acc es : List FSEntry) (rel p : List String),
      p ∈ allFilesRel rel es → migrateTarget (p.getLastD "") = none →
      p ∈ allFilesRel rel (migrateDir acc es) := by
  intro acc es
  induction acc, es using migrateDir.induct with
  | case1 acc => intro rel p hp _; simp [allFilesRel] at hp
  | case2 acc n sz m rest orig g h ih =>
    intro rel p hp hno
    simp only [allFilesRel] at hp
    rcases List.mem_cons.mp hp with heq2 | hmem
    · subst heq2
      rw [List.getLastD_concat] at hno
      simp [g] at hno
    · have hrec := ih rel p hmem hno
      have hd : migrateDir acc (FSEntry.file n sz m :: rest) =
          migrateDir (acc ++ [FSEntry.file n sz m]) rest := by
        simp only [migrateDir, g]
        rw [if_pos h]
      rw [hd]
      exact hrec
  | case3 acc n sz m rest orig g h ih =>
    intro rel p hp hno
    simp only [allFilesRel] at hp
    rcases List.mem_cons.mp hp with heq2 | hmem
    · subst heq2
      rw [List.getLastD_concat] at hno
      simp [g] at hno
    · have hrec := ih rel p hmem hno
      have hd : migrateDir acc (FSEntry.file n sz m :: rest) =
          migrateDir (acc ++ [FSEntry.file orig sz m]) rest := by
        simp only [migrateDir, g]
        rw [if_neg h]
      rw [hd]
      exact hrec
  | case4 acc n sz m rest g ih =>
    intro rel p hp hno
    have hd : migrateDir acc (FSEntry.file n sz m :: rest) =
        migrateDir (acc ++ [FSEntry.file n sz m]) rest := by
      simp [migrateDir, g]
    rw [hd]
    simp only [allFilesRel] at hp
    rcases List.mem_cons.mp hp with heq2 | hmem
    · subst heq2
      obtain ⟨t, ht⟩ := migrateDir_prefix (acc ++ [FSEntry.file n sz m]) rest
      rw [ht, List.append_assoc, allFilesRel_append, allFilesRel_append]
      simp [allFilesRel]
    · exact ih rel p hmem hno
  | case5 acc n children rest ihc ih =>
    intro rel p hp hno
    have hd : migrateDir acc (FSEntry.dir n children :: rest) =
        migrateDir (acc ++ [FSEntry.dir n (migrateDir [] children)]) rest := by
      simp [migrateDir]
    rw [hd]
    simp only [allFilesRel, List.mem_append] at hp
    rcases hp with hmem | hmem
    · obtain ⟨t, ht⟩ := migrateDir_prefix (acc ++ [FSEntry.dir n (migrateDir [] children)]) rest
      rw [ht, List.append_assoc, allFilesRel_append, allFilesRel_append]
      have hin := ihc (rel ++ [n]) p hmem hno
      simp [allFilesRel, hin]
    · exact ih rel p hmem hno

/-- C6 (amended): only the polling monitor (ClaudeService.monitor_files)
debounces: one 500 ms poll over a directory whose file set grew by a burst
of new paths emits exactly one files_updated message; its payload is the
flat listing rebuilt after list_session_files has run the
migrate_old_files rename pass over the directory, and it contains every new
path whose file name is not a rename candidate of that pass and whose
absolute path has no hidden component; when the rename pass leaves the
directory unchanged, the following poll over the resulting state emits
nothing.  (A new file whose name does match the rename pattern is renamed
during payload construction, so its created path is absent from the payload
and the renamed file surfaces as new on the next poll.)  The
watchdog-callback path emits one FilesUpdated per event instead. -/
theorem c6_debounced_poll (rootParts : List String) (initial : Finset (List String))
    (snapshot : List FSEntry) :
    (monitorPoll rootParts initial snapshot).1.length ≤ 1 ∧
    ((allFilesRel [] snapshot).toFinset \ initial ≠ ∅ →
      (monitorPoll rootParts initial snapshot).1 = [listSessionFiles rootParts snapshot] ∧
      (∀ p ∈ (allFilesRel [] snapshot).toFinset \ initial,
        migrateTarget (p.getLastD "") = none →
        noHiddenPart (rootParts ++ p) = true →
        p ∈ (listSessionFiles rootParts snapshot).map FlatEntry.parts)) ∧
    (migrateSnapshot snapshot = snapshot →
      (monitorPoll rootParts (monitorPoll rootParts initial snapshot).2.1
        (monitorPoll rootParts initial snapshot).2.2).1 = []) := by
  by_cases hnew : (allFilesRel [] snapshot).toFinset \ initial = ∅
  · refine ⟨?_, fun hc => absurd hnew hc, fun _ => ?_⟩
    · simp [monitorPoll, hnew]
    · simp [monitorPoll, hnew]
  · refine ⟨?_, fun _ => ⟨?_, ?_⟩, fun hmig => ?_⟩
    · simp [monitorPoll, hnew]
    · simp [monitorPoll, hnew]
    · intro p hp hpn hh
      have hmem : p ∈ allFilesRel [] snapshot :=
        List.mem_toFinset.mp (Finset.mem_sdiff.mp hp).1
      have hmem2 : p ∈ allFilesRel [] (migrateSnapshot snapshot) :=
        mem_migrateDir_of_noRename [] snapshot [] p hmem hpn
      exact mem_flatList_of_mem_allFiles rootParts [] (migrateSnapshot snapshot) p hmem2 hh
    · have hstep2 : (monitorPoll rootParts initial snapshot).2 =
          (initial ∪ ((allFilesRel [] snapshot).toFinset \ initial),
            migrateSnapshot snapshot) := by
        simp [monitorPoll, hnew]
      have hempty : (allFilesRel [] snapshot).toFinset \
          (initial ∪ ((allFilesRel [] snapshot).toFinset \ initial)) = ∅ := by
        ext x
        simp only [Finset.mem_sdiff, Finset.mem_union, Finset.not_mem_empty, iff_false]
        tauto
      rw [hstep2]
      simp [monitorPoll, hmig, hempty]

/-- Witness for c6_debounced_poll: one new non-candidate file appears
between polls and the rename pass is a no-op on the directory. -/
theorem c6_debounced_poll_witness :
    (monitorPoll ["workspace", "sid"] ∅ [.file "b.txt" 1 "t1"]).1 =
      [listSessionFiles ["workspace", "sid"] [.file "b.txt" 1 "t1"]] ∧
    ["b.txt"] ∈ (listSessionFiles ["workspace", "sid"] [.file "b.txt" 1 "t1"]).map
      FlatEntry.parts ∧
    (monitorPoll ["workspace", "sid"]
      (monitorPoll ["workspace", "sid"] ∅ [.file "b.txt" 1 "t1"]).2.1
      (monitorPoll ["workspace", "sid"] ∅ [.file "b.txt" 1 "t1"]).2.2).1 = [] := by
  have h := c6_debounced_poll ["workspace", "sid"] ∅ [.file "b.txt" 1 "t1"]
  have h2 := h.2.1 (by simp [allFilesRel])
  have hmt : migrateTarget "b.txt" = none := by decide
  have hmig : migrateSnapshot [FSEntry.file "b.txt" 1 "t1"] =
      [FSEntry.file "b.txt" 1 "t1"] := by
    simp [migrateSnapshot, migrateDir, hmt]
  exact ⟨h2.1, h2.2 ["b.txt"] (by simp [allFilesRel]) (by decide) (by rfl), h.2.2 hmig⟩

theorem flatList_noHidden (rp : List String) :
    ∀ (rel : List String) (es : List FSEntry),
      ((flatList rp rel es).all fun fe => noHiddenPart fe.parts) = true := by
  intro rel es
  induction rel, es using flatList.induct rp with
  | case1 rel => simp [flatList]
  | case2 rel n sz m rest ih =>
    by_cases hc : noHiddenPart (rp ++ (rel ++ [n])) = true
    · have hrel : noHiddenPart (rel ++ [n]) = true := noHiddenPart_of_append rp _ hc
      simp [flatList, hc, ih, hrel]
    · simp only [Bool.not_eq_true] at hc
      simp [flatList, hc, ih]
  | case3 rel n children rest ih1 ih2 =>
    simp [flatList, List.all_append, ih1, ih2]

theorem noHiddenPart_snoc (rel : List String) (n : String)
    (hrel : noHiddenPart rel = true) (hn : strStartsWith n "." = false) :
    noHiddenPart (rel ++ [n]) = true := by
  simp [noHiddenPart, List.all_append] at hrel ⊢
  exact ⟨hrel, hn⟩

theorem buildChildren_noHidden :
    ∀ (rel : List String) (es : List FSEntry), noHiddenPart rel = true →
      childrenNoHidden (buildChildren rel es) = true := by
  intro rel es
  induction rel, es using buildChildren.induct with
  | case1 rel => intro _; simp [buildChildren, childrenNoHidden]
  | case2 rel b rest hhid ih =>
    intro hrel
    cases b with
    | file n sz m =>
      simp only [entryName] at hhid
      simp [buildChildren, entryName, hhid, ih hrel]
    | dir n children =>
      simp only [entryName] at hhid
      simp [buildChildren, entryName, hhid, ih hrel]
  | case3 rel rest n sz m hnb ih =>
    intro hrel
    have hn : strStartsWith n "." = false := by simpa [entryName] using hnb
    simp [buildChildren, entryName, hn, childrenNoHidden, ih hrel,
      noHiddenPart_snoc rel n hrel hn]
  | case4 rel rest n children hnd ih1 ih2 =>
    intro hrel
    have hn : strStartsWith n "." = false := by simpa [entryName] using hnd
    have hdeep : noHiddenPart (rel ++ [n]) = true := noHiddenPart_snoc rel n hrel hn
    simp [buildChildren, entryName, hn, childrenNoHidden, ih1 hdeep, ih2 hrel, hdeep]

/-- C10: every entry of the flat file list has a workspace-relative path
with no component beginning with a dot; every node of the built file tree
likewise; and the total_files / total_size aggregates are computed from that
hidden-filtered flat list, so hidden files never contribute to them. -/
theorem c10_no_hidden_entries (rootName : String) (rootParts : List String)
    (children : List FSEntry) :
    ((getFlatFileList rootParts children).all fun fe => noHiddenPart fe.parts) = true ∧
    treeNoHidden (buildFileTree rootName children) = true ∧
    (getDirectoryStructure rootName rootParts children).totalFiles =
      (getFlatFileList rootParts children).length ∧
    (getDirectoryStructure rootName rootParts children).totalSize =
      ((getFlatFileList rootParts children).map FlatEntry.size).sum := by
  refine ⟨flatList_noHidden rootParts [] children, ?_, rfl, rfl⟩
  simp [buildFileTree, treeNoHidden, noHiddenPart,
    buildChildren_noHidden [] children rfl]

/-- C3: the resolved-path sandbox claim against both implementations at the
traversal input dot-dot slash secret.txt: the resolved path escapes the
session directory (the startswith test on resolved paths fails), the
file_service implementation rejects with 403 as the claim requires, but the
main.py implementation - whose check runs on the unresolved strings - lets
the same request through and returns the file content. -/
theorem c3_sandbox_divergence :
    insideCheck ["workspace", "sid"] ["..", "secret.txt"] = false ∧
    fileServiceGetContent ["workspace", "sid"] ["..", "secret.txt"] outsideDisk =
      .error 403 ∧
    mainGetContent ["workspace", "sid"] ["..", "secret.txt"] outsideDisk =
      .ok ⟨true, some "TOP-SECRET", "text", "secret.txt", none⟩ := by
  exact ⟨rfl, rfl, rfl⟩

end Spec2Proof
